import Mathlib

/-!
Shallow embedding of the taopulse core (pipeline engine, batching persistor,
response cache) for checking the natural-language specification.

Conventions of the embedding:
* External collaborators (the tweet-search HTTP call, the LLM chat call, the
  chain extrinsic, the Redis store, the SQL bulk insert) are modelled as
  environment inputs: each pipeline run receives the outcome every external
  call would produce (`Except err value` when the Python call can raise).
* Wall-clock durations and log lines are elided: no claim depends on them.
* Python floats (`0.01 * sentiment`) are modelled exactly over `ℚ`.
* `re` patterns are modelled by executable functions over `List Char` with
  the leftmost-match / lazy-quantifier semantics of the concrete pattern
  used by the source (documented at the definition).
-/

namespace Taopulse

/-- `app/trade/schemas.py` `Tweet`: text plus the tweet timestamp
(datetime modelled as an integer timestamp). -/
structure Tweet where
  text : String
  created_at : Int
deriving DecidableEq, Repr

/-- `app/common/schemas.py` `BaseResponse` fields inlined into
`app/trade/schemas.py` `SentimentResponse` (duration elided). -/
structure SentimentResponse where
  sentiment : Int
  is_success : Bool
  message : String
  tweets_count : Nat
deriving DecidableEq, Repr

/-- `app/trade/schemas.py` `TweetResponse` (BaseResponse fields inlined,
duration elided; `is_success` defaults to `true`, `message` to `none`). -/
structure TweetResponse where
  tweets : List Tweet
  is_success : Bool := true
  message : Option String := none
deriving DecidableEq, Repr

/-- The literal `<score>` opening tag of the extraction pattern. -/
def tagOpen : List Char := "<score>".data

/-- The literal `</score>` closing tag of the extraction pattern. -/
def tagClose : List Char := "</score>".data

/-- Whether `pat` occurs as a contiguous subsequence of the list. -/
def containsSeq (pat : List Char) : List Char → Bool
  | [] => decide (pat = [])
  | c :: cs => List.isPrefixOf pat (c :: cs) || containsSeq pat cs

/-- Longest prefix of decimal digits. -/
def digitsPrefix : List Char → List Char
  | [] => []
  | c :: cs => if c.isDigit then c :: digitsPrefix cs else []

/-- Numeric value of a decimal digit character. -/
def digitVal (c : Char) : Nat := c.toNat - 48

/-- `int()` of a digit string, accumulator form. -/
def natOfDigits (acc : Nat) : List Char → Nat
  | [] => acc
  | c :: cs => natOfDigits (acc * 10 + digitVal c) cs

/-- The part of the search after an `<score>` occurrence: the pattern
`[\s\S]*?(\d+)[\s\S]*?</score>` lazily skips to the first digit from which
the closing tag can still be reached, and the greedy `\d+` then captures
the maximal digit run there (the closing tag starts with a non-digit, so
any later occurrence of it lies at or after the end of that run). -/
def scoreAfterTag : List Char → Option Nat
  | [] => none
  | c :: cs =>
    if c.isDigit && containsSeq tagClose cs then
      some (natOfDigits (digitVal c) (digitsPrefix cs))
    else scoreAfterTag cs

/-- `re.search(r"<score>[\s\S]*?(\d+)[\s\S]*?</score>", content)` followed by
`int(match.group(1))` (`app/trade/sentiment_service.py:124`): the leftmost
position where the literal `<score>` matches and the rest of the pattern can
complete wins, and the captured group's integer value is returned. -/
def searchScore : List Char → Option Nat
  | [] => none
  | c :: cs =>
    match (if List.isPrefixOf tagOpen (c :: cs) then
             scoreAfterTag ((c :: cs).drop tagOpen.length) else none) with
    | some n => some n
    | none => searchScore cs

/-- `SentimentService.sentiment_tweets` (`app/trade/sentiment_service.py:98`).
`llm` is the outcome of `invoke_chute`: `.error e` when the HTTP call / JSON
access raises, `.ok content` for the returned message content (the
`response.get("content", "")` default is covered by `.ok ""`).  The empty
check precedes the LLM call, so the `llm` argument is not consumed there. -/
def sentiment_tweets (tweets : List Tweet) (llm : Except String String) :
    Except String SentimentResponse :=
  if tweets.length = 0 then
    .ok ⟨0, false, "No tweets to analyze", tweets.length⟩
  else
    match llm with
    | .error e => .error e
    | .ok content =>
      match searchScore content.data with
      | some n => .ok ⟨(n : Int), true, "Sentiment score extracted successfully", tweets.length⟩
      | none => .ok ⟨0, false, "Failed to extract sentiment score", tweets.length⟩

theorem searchScore_plain : searchScore "<score>150</score>".data = some 150 := by decide

theorem searchScore_spaced : searchScore "<score> 42 </score>".data = some 42 := by decide

theorem searchScore_drops_sign : searchScore "<score>-42</score>".data = some 42 := by decide

theorem searchScore_digits_after_close :
    searchScore "<score> hi </score> 42".data = none := by decide

theorem searchScore_no_tags : searchScore "no tags".data = none := by decide

/-- `TweetsService.get_bittensor_tweets` (`app/trade/tweets_service.py:72`).
`fetch` is the outcome of the wrapped `fetch_tweets` HTTP call plus response
decoding; the whole body is inside `try/except`, so a raise from the call
yields the empty unsuccessful response and the method itself never raises. -/
def get_bittensor_tweets (fetch : Except String (List Tweet)) (count : Nat := 10) :
    TweetResponse :=
  match fetch with
  | .ok resp => { tweets := resp.take count }
  | .error e => { tweets := [], is_success := false, message := some e }

/-- `app/trade/schemas.py` `ActionEnum`. -/
inductive ActionEnum
  | stake
  | unstake
deriving DecidableEq, Repr

/-- `app/trade/schemas.py` `TradeResult` (duration elided; `amount` is the
exact rational value of the float `abs(0.01 * sentiment)`). -/
structure TradeResult where
  is_success : Bool
  message : Option String := none
  action : Option ActionEnum := none
  amount : Option ℚ := none
deriving DecidableEq, Repr

/-- `TradeService.trade` (`app/trade/trade_service.py:56`) with
`add_stake`/`unstake` (`:102`,`:120`) inlined.  `wallet` is `self.wallet`
(`some` of the wallet's hotkey address when initialized), `chain` the outcome
of the `AsyncSubtensor` extrinsic (`.error` when it raises).  The
`try/except/finally` catches every exception, so the method always returns a
`TradeResult`; `result.action` is mutated to the chosen action before the
chain call, and `result.amount` before the branch, so both survive a chain
raise.  The numeric amount inside the success messages is elided. -/
def TradeService.trade (wallet : Option String) (hotkey : String) (sentiment : Int)
    (chain : Except String Bool) : TradeResult :=
  match wallet with
  | none => ⟨false, some "Trade execution error: Wallet not initialized", none, none⟩
  | some w =>
    if hotkey ≠ w then
      ⟨false, some "Trade execution error: Hotkey address does not match wallet hotkey",
        none, none⟩
    else
      let amount_tao : ℚ := |(1 / 100 : ℚ) * sentiment|
      if sentiment > 0 then
        match chain with
        | .error e => ⟨false, some ("Trade execution error: " ++ e), some .stake, some amount_tao⟩
        | .ok true => ⟨true, some "Successfully staked", some .stake, some amount_tao⟩
        | .ok false => ⟨false, some "Failed to add stake", some .stake, some amount_tao⟩
      else if sentiment < 0 then
        match chain with
        | .error e =>
          ⟨false, some ("Trade execution error: " ++ e), some .unstake, some amount_tao⟩
        | .ok true => ⟨true, some "Successfully unstaked", some .unstake, some amount_tao⟩
        | .ok false => ⟨false, some "Failed to unstake", some .unstake, some amount_tao⟩
      else
        ⟨true, some "Sentiment score is 0: No action taken", none, some amount_tao⟩

/-- The dividends mapping `dict[int, dict[str, int]]` as association lists. -/
abbrev Dividends := List (Int × List (String × Int))

/-- One queued record (`app/storage/models.py` rows as built by the
`PeriodicSaveStorage.add_*` methods; `created_at` timestamps elided). -/
inductive Rec
  | tweet (text : String) (request_id : String) (netuid : Int)
  | sentiment (score : Int) (is_success : Bool) (message : String)
      (tweets_count : Nat) (request_id : String) (netuid : Int)
  | trade (action : Option ActionEnum) (amount : Option ℚ) (is_success : Bool)
      (message : Option String) (sentiment_score : Int) (request_id : String)
  | dividend (netuid : Option Int) (hotkey : Option String) (trade_triggered : Bool)
      (data : Dividends) (request_id : String)
deriving DecidableEq, Repr

/-- `PeriodicSaveStorage.add_twitter` (`app/storage/storage.py:197`): one
`Tweet` row per tweet of the response; `netuid = getattr(response, "netuid", 0)`
is always `0` since `TweetResponse` has no such attribute. -/
def add_twitter (tr : TweetResponse) (request_id : String) : List Rec :=
  tr.tweets.map fun t => .tweet t.text request_id 0

/-- `PeriodicSaveStorage.add_sentiment` (`app/storage/storage.py:158`): one
`SentimentAnalysis` row, then one `Tweet` row per analyzed tweet;
`netuid = getattr(tweets[0], "netuid", 0) if tweets else 0` is always `0`
since the `Tweet` schema has no such attribute. -/
def add_sentiment (s : SentimentResponse) (tweets : List Tweet) (request_id : String) :
    List Rec :=
  .sentiment s.sentiment s.is_success s.message s.tweets_count request_id 0
    :: tweets.map fun t => .tweet t.text request_id 0

/-- `PeriodicSaveStorage.add_trade` (`app/storage/storage.py:222`). -/
def add_trade (t : TradeResult) (request_id : String) (sentiment : Int) : List Rec :=
  [.trade t.action t.amount t.is_success t.message sentiment request_id]

/-- `PeriodicSaveStorage.add_dividends` (`app/storage/storage.py:250`). -/
def add_dividends (data : Dividends) (request_id : String) (netuid : Option Int)
    (hotkey : Option String) (trade : Bool) : List Rec :=
  [.dividend netuid hotkey trade data request_id]

/-- `app/trade/schemas.py` `ExecuteInput`. -/
structure ExecuteInput where
  request_id : String
  trade : Bool
  netuid : Int
  hotkey : String
deriving DecidableEq, Repr

/-- The outcomes of the three external capability calls consumed by one
pipeline run, plus the trade service's wallet state. -/
structure PipelineEnv where
  fetch : Except String (List Tweet)
  llm : Except String String
  chain : Except String Bool
  wallet : Option String

/-- Observable result of one `background_process` coroutine: the records it
enqueued into the persistor, and the exception escaping the coroutine if any
(the detached `asyncio` task absorbs such an exception; no caller sees it). -/
structure BPResult where
  recs : List Rec
  escaped : Option String
deriving DecidableEq

/-- `ExecuteService.background_process` (`app/trade/execute_service.py:42`).
Stage A fetches tweets and always enqueues its rows; on failure the run ends.
Stage B calls `sentiment_tweets`: if the LLM call raises, the exception
escapes the coroutine before any Stage-B enqueue; otherwise its record is
enqueued and an unsuccessful score ends the run.  Stage C trades and enqueues
its record; `TradeService.trade` never raises. -/
def background_process (input : ExecuteInput) (env : PipelineEnv) : BPResult :=
  let tweets_result := get_bittensor_tweets env.fetch 10
  let r1 := add_twitter tweets_result input.request_id
  if tweets_result.is_success = false then
    ⟨r1, none⟩
  else
    match sentiment_tweets tweets_result.tweets env.llm with
    | .error e => ⟨r1, some e⟩
    | .ok sres =>
      let r2 := r1 ++ add_sentiment sres tweets_result.tweets input.request_id
      if sres.is_success = false then
        ⟨r2, none⟩
      else
        let tres := TradeService.trade env.wallet input.hotkey sres.sentiment env.chain
        ⟨r2 ++ add_trade tres input.request_id sres.sentiment, none⟩

/-- `app/api/schemas.py` `TradeInstantResult`. -/
structure TradeInstantResult where
  stake_tx_triggered : Bool
  netuid : Int
deriving DecidableEq, Repr

/-- Observable result of `ExecuteService.trade`: the instantly returned
answer, plus what the detached background task eventually does. -/
structure ExecuteOutcome where
  instant : TradeInstantResult
  recs : List Rec
  escaped : Option String
deriving DecidableEq

/-- `ExecuteService.trade` (`app/trade/execute_service.py:30`): when the
trade flag is false it returns before any pipeline work; otherwise it spawns
`background_process` as a detached task and returns immediately — the
returned `TradeInstantResult` is built before and independently of the
task's outcome. -/
def ExecuteService.trade (input : ExecuteInput) (env : PipelineEnv) : ExecuteOutcome :=
  if input.trade = false then
    ⟨⟨false, input.netuid⟩, [], none⟩
  else
    let bp := background_process input env
    ⟨⟨true, input.netuid⟩, bp.recs, bp.escaped⟩

/-- The four named queues of `PeriodicSaveStorage.queues`
(`app/storage/storage.py:46`), in dict insertion order. -/
inductive ModelType
  | tweets
  | sentiment_analyses
  | trades
  | dividends
deriving DecidableEq, Repr

/-- Iteration order of `self.queues.items()`. -/
def allModelTypes : List ModelType := [.tweets, .sentiment_analyses, .trades, .dividends]

/-- Persistor state: the in-memory queues and the durable Record Store
(rows already committed by past bulk writes, tagged with their table). -/
structure StorageState where
  queues : ModelType → List Rec
  store : List (ModelType × Rec)

/-- One queue's step inside `PeriodicSaveStorage._save_all`
(`app/storage/storage.py:97`): with `q` the queue at loop entry, `ok` the
bulk-write outcome, and `arr` the records concurrently enqueued while the
write is awaited.  An empty queue is skipped (no write attempted).  Otherwise
the batch is copied out and the queue reset to `[]`; arrivals land in the
fresh queue; on failure the handler runs `queues[k].extend(batch)`, appending
the whole batch after the arrivals.  Returns the queue afterwards and the
durably written batch (empty on skip or failure). -/
def flushKind (q : List Rec) (ok : Bool) (arr : List Rec) : List Rec × List Rec :=
  if q = [] then (arr, [])
  else if ok then (arr, q)
  else (arr ++ q, [])

/-- `PeriodicSaveStorage._save_all` over the four queues, each with its own
write outcome and mid-write arrivals; written batches are appended to the
Record Store in queue-iteration order. -/
def save_all (s : StorageState) (ok : ModelType → Bool) (arr : ModelType → List Rec) :
    StorageState where
  queues := fun k => (flushKind (s.queues k) (ok k) (arr k)).1
  store := s.store ++
    (allModelTypes.map fun k =>
      (flushKind (s.queues k) (ok k) (arr k)).2.map fun r => (k, r)).flatten

/-- JSON values, as produced by `orjson.dumps`/`orjson.loads`. -/
inductive Json
  | str (s : String)
  | int (n : Int)
  | bool (b : Bool)
  | arr (xs : List Json)
  | obj (fields : List (String × Json))
  | null

/-- Field access on a decoded JSON object. -/
def Json.lookup (j : Json) (key : String) : Option Json :=
  match j with
  | .obj fields => List.lookup key fields
  | _ => none

/-- Python dict assignment on an association list with unique keys:
replace in place if present, append otherwise. -/
def setKey (key : String) (v : Json) : List (String × Json) → List (String × Json)
  | [] => [(key, v)]
  | (k, w) :: rest => if k = key then (k, v) :: rest else (k, w) :: setKey key v rest

/-- `cached_result["cached"] = True` on the decoded dict. -/
def Json.setField (j : Json) (key : String) (v : Json) : Json :=
  match j with
  | .obj fields => .obj (setKey key v fields)
  | j => j

/-- Python truthiness of a decoded JSON value (`if cached_result:`). -/
def Json.truthy : Json → Bool
  | .null => false
  | .bool b => b
  | .int n => n != 0
  | .str s => s != ""
  | .arr xs => !xs.isEmpty
  | .obj fields => !fields.isEmpty

/-- Serialization of the dividends mapping (JSON object keys are strings;
`jsonable_encoder` stringifies the integer subnet ids). -/
def dividendsJson (d : Dividends) : Json :=
  .obj (d.map fun p => (toString p.1, .obj (p.2.map fun q => (q.1, .int q.2))))

/-- `app/api/schemas.py` `TaoDividentsResult` (`collected_at` as an integer
timestamp; its ISO rendering is irrelevant to every claim). -/
structure TaoDividentsResult where
  dividends : Dividends
  collected_at : Int
  cached : Bool
  trade : TradeInstantResult
  request_id : String

/-- JSON encoding of `TradeInstantResult`, field order as declared. -/
def TradeInstantResult.toJson (t : TradeInstantResult) : Json :=
  .obj [("stake_tx_triggered", .bool t.stake_tx_triggered), ("netuid", .int t.netuid)]

/-- JSON encoding of `TaoDividentsResult` (the `orjson.dumps value,
default=jsonable_encoder` / `orjson.loads` round trip of
`RedisClient.set_cache` and `get_cache`), field order as declared. -/
def TaoDividentsResult.toJson (r : TaoDividentsResult) : Json :=
  .obj [("dividends", dividendsJson r.dividends),
        ("collected_at", .int r.collected_at),
        ("cached", .bool r.cached),
        ("trade", r.trade.toJson),
        ("request_id", .str r.request_id)]

/-- One Redis key's state: the stored serialized value and the absolute
expiry set by `SET ... EX ttl`. -/
structure RedisEntry where
  value : Json
  expires_at : Int

/-- The Redis key space. -/
def RedisStore := String → Option RedisEntry

/-- Redis `GET` under `redis-py` as used by `RedisClient.get_cache`
(`app/common/redis_client.py:72`): Redis checks expiry on read, so a key
whose TTL has elapsed reads as nil even before eviction. -/
def redisGet (store : RedisStore) (key : String) (now : Int) : Option Json :=
  match store key with
  | some e => if now < e.expires_at then some e.value else none
  | none => none

/-- Redis `SET key value EX ttl` as used by `RedisClient.set_cache`
(`app/common/redis_client.py:46`): overwrites wholesale and arms the TTL. -/
def redisSet (store : RedisStore) (key : String) (v : Json) (ttl : Int) (now : Int) :
    RedisStore :=
  fun k => if k = key then some ⟨v, now + ttl⟩ else store k

/-- Python `f"{x}"` of an optional integer argument (`str(None) = "None"`). -/
def pyOptInt : Option Int → String
  | none => "None"
  | some n => toString n

/-- Python `f"{x}"` of an optional string argument. -/
def pyOptStr : Option String → String
  | none => "None"
  | some s => s

/-- Python `f"{x}"` of a bool. -/
def pyBool : Bool → String
  | true => "True"
  | false => "False"

/-- `cache_key = f"tao_dividends:{netuid}_{hotkey}_{trade}"`
(`app/api/api.py:87`). -/
def cacheKey (netuid : Option Int) (hotkey : Option String) (trade : Bool) : String :=
  "tao_dividends:" ++ pyOptInt netuid ++ "_" ++ pyOptStr hotkey ++ "_" ++ pyBool trade

/-- `settings.cache_ttl` default (`app/common/config.py:25`). -/
def settings.cache_ttl : Int := 120

/-- Per-request environment of one `get_tao_dividends` call: the primary
fetch result, the generated request id, the call's timestamp, the configured
defaults, and the pipeline stage outcomes. -/
structure HandleEnv where
  dividends : Dividends
  request_id : String
  collected_at : Int
  default_netuid : Int
  default_hotkey : String
  pipeline : PipelineEnv

/-- Observable outcome of one `get_tao_dividends` call: the JSON payload
returned to the caller, the Redis key space afterwards, and every record the
call (including its detached pipeline) enqueues. -/
structure HandleOutcome where
  payload : Json
  store : RedisStore
  recs : List Rec

/-- The cache-miss path of `get_tao_dividends` (`app/api/api.py:95`): fetch
dividends, enqueue the dividend record, run `ExecuteService.trade`, build the
fresh answer with `cached=False`, cache it under the TTL, return it. -/
def freshAnswer (netuid : Option Int) (hotkey : Option String) (trade : Bool)
    (store : RedisStore) (now : Int) (env : HandleEnv) : HandleOutcome :=
  let recs1 := add_dividends env.dividends env.request_id netuid hotkey trade
  let ex := ExecuteService.trade
    ⟨env.request_id, trade, netuid.getD env.default_netuid, hotkey.getD env.default_hotkey⟩
    env.pipeline
  let result : TaoDividentsResult :=
    ⟨env.dividends, env.collected_at, false, ex.instant, env.request_id⟩
  ⟨result.toJson,
    redisSet store (cacheKey netuid hotkey trade) result.toJson settings.cache_ttl now,
    recs1 ++ ex.recs⟩

/-- `get_tao_dividends` (`app/api/api.py:69`): compute the cache key; a
truthy cached value is returned with `cached` overwritten to `True` and
nothing else touched; otherwise take the fresh (miss) path. -/
def get_tao_dividends (netuid : Option Int) (hotkey : Option String) (trade : Bool)
    (store : RedisStore) (now : Int) (env : HandleEnv) : HandleOutcome :=
  match redisGet store (cacheKey netuid hotkey trade) now with
  | some v =>
    if v.truthy then ⟨v.setField "cached" (.bool true), store, []⟩
    else freshAnswer netuid hotkey trade store now env
  | none => freshAnswer netuid hotkey trade store now env

/-- Whether a queued record is a Stage-A (tweet) row. -/
def Rec.isTweetRec : Rec → Bool
  | .tweet _ _ _ => true
  | _ => false

/-- Whether a queued record is a Stage-B (sentiment) row. -/
def Rec.isSentimentRec : Rec → Bool
  | .sentiment _ _ _ _ _ _ => true
  | _ => false

/-- Whether a queued record is a Stage-C (trade) row. -/
def Rec.isTradeRec : Rec → Bool
  | .trade _ _ _ _ _ _ => true
  | _ => false

/-- Whether a queued record is a trade row carrying the unstake action. -/
def Rec.isUnstakeRec : Rec → Bool
  | .trade (some .unstake) _ _ _ _ _ => true
  | _ => false

/-- The `request_id` column every queued record carries. -/
def Rec.reqId : Rec → String
  | .tweet _ rid _ => rid
  | .sentiment _ _ _ _ rid _ => rid
  | .trade _ _ _ _ _ rid => rid
  | .dividend _ _ _ _ rid => rid

/- ### Helper lemmas -/

theorem count_map_pair_eq (k : ModelType) (r : Rec) (l : List Rec) :
    (l.map fun x => (k, x)).count (k, r) = l.count r := by
  induction l with
  | nil => rfl
  | cons a t ih =>
    simp only [List.map_cons, List.count_cons, ih, beq_iff_eq, Prod.mk.injEq, true_and]

theorem count_map_pair_ne (k k' : ModelType) (h : k' ≠ k) (r : Rec) (l : List Rec) :
    (l.map fun x => (k', x)).count (k, r) = 0 := by
  induction l with
  | nil => rfl
  | cons a t ih =>
    simp only [List.map_cons, List.count_cons, ih, beq_iff_eq, Prod.mk.injEq]
    simp [h]

theorem count_flushKind_queue (q : List Rec) (ok : Bool) (arr : List Rec) (r : Rec) :
    ((flushKind q ok arr).1).count r
      = (if ok ∧ q ≠ [] then (arr).count r else (arr).count r + q.count r) := by
  by_cases hq : q = [] <;> cases ok <;> simp [flushKind, hq, List.count_append]

theorem count_flushKind_written (q : List Rec) (ok : Bool) (arr : List Rec) (r : Rec) :
    ((flushKind q ok arr).2).count r = (if ok ∧ q ≠ [] then q.count r else 0) := by
  by_cases hq : q = [] <;> cases ok <;> simp [flushKind, hq]

theorem flushKind_queue_success (q : List Rec) : (flushKind q true []).1 = [] := by
  by_cases hq : q = [] <;> simp [flushKind, hq]

theorem count_save_all_store (s : StorageState) (ok : ModelType → Bool)
    (arr : ModelType → List Rec) (k : ModelType) (r : Rec) :
    ((save_all s ok arr).store).count (k, r)
      = s.store.count (k, r)
        + (if ok k ∧ s.queues k ≠ [] then (s.queues k).count r else 0) := by
  cases k <;>
    simp [save_all, allModelTypes, List.count_append, count_map_pair_eq,
      count_map_pair_ne, count_flushKind_written]

/- ### Claim C1 -/

/-- C1: for every named queue, a failed bulk write merges the entire removed
batch back into that queue (no record dropped: each record's multiplicity in
the queue afterwards is its multiplicity among the mid-flush arrivals plus
its multiplicity in the removed batch); when the next flush attempt succeeds
every buffered record appears in the Record Store exactly as many times as it
was buffered — in particular exactly once for a record buffered once — and
zero times in any in-memory queue. -/
theorem flush_fail_then_retry_exactly_once
    (s s1 s2 : StorageState) (ok1 : ModelType → Bool) (arr : ModelType → List Rec)
    (k : ModelType) (r : Rec)
    (hfail : ok1 k = false)
    (h1 : s1 = save_all s ok1 arr)
    (h2 : s2 = save_all s1 (fun _ => true) (fun _ => [])) :
    (s1.queues k).count r = (arr k).count r + (s.queues k).count r
    ∧ (∀ k', s2.queues k' = [])
    ∧ s2.store.count (k, r)
        = s.store.count (k, r) + (s.queues k).count r + (arr k).count r := by
  subst h1 h2
  have hs1q : ((save_all s ok1 arr).queues k).count r
      = (arr k).count r + (s.queues k).count r := by
    show ((flushKind (s.queues k) (ok1 k) (arr k)).1).count r = _
    rw [count_flushKind_queue]
    simp [hfail]
  refine ⟨hs1q, ?_, ?_⟩
  · intro k'
    show (flushKind ((save_all s ok1 arr).queues k') true []).1 = []
    exact flushKind_queue_success _
  · rw [count_save_all_store, count_save_all_store]
    by_cases hq : (save_all s ok1 arr).queues k = []
    · have h0 : (arr k).count r + (s.queues k).count r = 0 := by
        rw [← hs1q, hq]; rfl
      simp only [hq, ne_eq, not_true_eq_false, and_false, if_false, hfail,
        Bool.false_eq_true, false_and, add_zero]
      omega
    · simp only [ne_eq, hq, not_false_eq_true, and_true, if_true, hs1q, hfail,
        Bool.false_eq_true, false_and, if_false, add_zero]
      omega

/-- Witness for C1 at a concrete state: one tweet record buffered, first
write fails, retry succeeds; the record ends up once in the store. -/
theorem flush_fail_then_retry_exactly_once_witness :
    ((save_all ⟨fun _ => [Rec.tweet "gm" "r1" 0], []⟩ (fun _ => false) fun _ => []).queues
        ModelType.tweets).count (Rec.tweet "gm" "r1" 0)
      = ([] : List Rec).count (Rec.tweet "gm" "r1" 0)
        + [Rec.tweet "gm" "r1" 0].count (Rec.tweet "gm" "r1" 0)
    ∧ (∀ k', (save_all (save_all ⟨fun _ => [Rec.tweet "gm" "r1" 0], []⟩ (fun _ => false)
        fun _ => []) (fun _ => true) fun _ => []).queues k' = [])
    ∧ ((save_all (save_all ⟨fun _ => [Rec.tweet "gm" "r1" 0], []⟩ (fun _ => false)
        fun _ => []) (fun _ => true) fun _ => []).store).count
          (ModelType.tweets, Rec.tweet "gm" "r1" 0)
      = ([] : List (ModelType × Rec)).count (ModelType.tweets, Rec.tweet "gm" "r1" 0)
        + [Rec.tweet "gm" "r1" 0].count (Rec.tweet "gm" "r1" 0)
        + ([] : List Rec).count (Rec.tweet "gm" "r1" 0) :=
  flush_fail_then_retry_exactly_once ⟨fun _ => [Rec.tweet "gm" "r1" 0], []⟩ _ _
    (fun _ => false) (fun _ => []) ModelType.tweets (Rec.tweet "gm" "r1" 0) rfl rfl rfl

theorem sentiment_tweets_nonneg (tweets : List Tweet) (llm : Except String String)
    (r : SentimentResponse) (h : sentiment_tweets tweets llm = .ok r) :
    0 ≤ r.sentiment := by
  unfold sentiment_tweets at h
  split at h
  · injection h with h
    subst h
    simp
  · cases llm with
    | error e => cases h
    | ok content =>
      simp only at h
      cases hs : searchScore content.data with
      | some n =>
        rw [hs] at h
        injection h with h
        subst h
        simp
      | none =>
        rw [hs] at h
        injection h with h
        subst h
        simp

theorem trade_action_nonneg (wallet : Option String) (hotkey : String) (sentiment : Int)
    (chain : Except String Bool) (h : 0 ≤ sentiment) :
    (TradeService.trade wallet hotkey sentiment chain).action ≠ some ActionEnum.unstake := by
  cases wallet with
  | none => simp [TradeService.trade]
  | some w =>
    by_cases hw : hotkey = w
    · have hneg : ¬ sentiment < 0 := by omega
      by_cases hp : sentiment > 0
      · cases chain with
        | error e => simp [TradeService.trade, hw, hp]
        | ok b => cases b <;> simp [TradeService.trade, hw, hp]
      · simp [TradeService.trade, hw, hp, hneg]
    · simp [TradeService.trade, hw]

theorem mem_add_twitter (tr : TweetResponse) (rid : String) (rec : Rec)
    (h : rec ∈ add_twitter tr rid) : rec.isTweetRec = true ∧ rec.reqId = rid := by
  unfold add_twitter at h
  obtain ⟨t, _, rfl⟩ := List.mem_map.mp h
  exact ⟨rfl, rfl⟩

theorem background_process_cases (input : ExecuteInput) (env : PipelineEnv) :
    ((get_bittensor_tweets env.fetch 10).is_success = false ∧
      background_process input env
        = ⟨add_twitter (get_bittensor_tweets env.fetch 10) input.request_id, none⟩)
    ∨ ((get_bittensor_tweets env.fetch 10).is_success = true ∧
      ∃ e, sentiment_tweets (get_bittensor_tweets env.fetch 10).tweets env.llm = .error e ∧
        background_process input env
          = ⟨add_twitter (get_bittensor_tweets env.fetch 10) input.request_id, some e⟩)
    ∨ ((get_bittensor_tweets env.fetch 10).is_success = true ∧
      ∃ sres, sentiment_tweets (get_bittensor_tweets env.fetch 10).tweets env.llm = .ok sres ∧
        sres.is_success = false ∧
        background_process input env
          = ⟨add_twitter (get_bittensor_tweets env.fetch 10) input.request_id
              ++ add_sentiment sres (get_bittensor_tweets env.fetch 10).tweets
                  input.request_id, none⟩)
    ∨ ((get_bittensor_tweets env.fetch 10).is_success = true ∧
      ∃ sres, sentiment_tweets (get_bittensor_tweets env.fetch 10).tweets env.llm = .ok sres ∧
        sres.is_success = true ∧
        background_process input env
          = ⟨add_twitter (get_bittensor_tweets env.fetch 10) input.request_id
              ++ add_sentiment sres (get_bittensor_tweets env.fetch 10).tweets input.request_id
              ++ add_trade (TradeService.trade env.wallet input.hotkey sres.sentiment env.chain)
                  input.request_id sres.sentiment, none⟩) := by
  by_cases ha : (get_bittensor_tweets env.fetch 10).is_success = false
  · exact Or.inl ⟨ha, by simp [background_process, ha]⟩
  · have ha' : (get_bittensor_tweets env.fetch 10).is_success = true := by
      cases h : (get_bittensor_tweets env.fetch 10).is_success
      · exact absurd h ha
      · rfl
    cases hs : sentiment_tweets (get_bittensor_tweets env.fetch 10).tweets env.llm with
    | error e =>
      exact Or.inr (Or.inl ⟨ha', e, rfl, by simp [background_process, ha', hs]⟩)
    | ok sres =>
      by_cases hb : sres.is_success = false
      · exact Or.inr (Or.inr (Or.inl
          ⟨ha', sres, rfl, hb, by simp [background_process, ha', hs, hb]⟩))
      · have hb' : sres.is_success = true := by
          cases h : sres.is_success
          · exact absurd h hb
          · rfl
        exact Or.inr (Or.inr (Or.inr
          ⟨ha', sres, rfl, hb', by simp [background_process, ha', hs, hb']⟩))

theorem mem_add_sentiment (s : SentimentResponse) (tweets : List Tweet) (rid : String)
    (rec : Rec) (h : rec ∈ add_sentiment s tweets rid) :
    (rec = .sentiment s.sentiment s.is_success s.message s.tweets_count rid 0
      ∨ rec.isTweetRec = true) ∧ rec.reqId = rid := by
  unfold add_sentiment at h
  rcases List.mem_cons.mp h with h | h
  · exact ⟨Or.inl h, by rw [h]; rfl⟩
  · obtain ⟨t, _, rfl⟩ := List.mem_map.mp h
    exact ⟨Or.inr rfl, rfl⟩

theorem isTweetRec_not_unstake (rec : Rec) (h : rec.isTweetRec = true) :
    rec.isUnstakeRec = false := by
  cases rec <;> simp_all [Rec.isTweetRec, Rec.isUnstakeRec]

theorem mem_add_trade (t : TradeResult) (rid : String) (sent : Int) (rec : Rec)
    (h : rec ∈ add_trade t rid sent) :
    rec = .trade t.action t.amount t.is_success t.message sent rid := by
  simpa [add_trade] using h

theorem isUnstakeRec_trade (action : Option ActionEnum) (amount : Option ℚ) (b : Bool)
    (m : Option String) (s : Int) (rid : String)
    (h : action ≠ some ActionEnum.unstake) :
    (Rec.trade action amount b m s rid).isUnstakeRec = false := by
  cases action with
  | none => rfl
  | some a =>
    cases a with
    | stake => rfl
    | unstake => exact absurd rfl h

/- ### Claim C3 -/

/-- C3 counterexample: an LLM reply whose score tag holds `150` makes the
scoring capability return verdict `150`, outside `[-100, 100]`; the code
extracts whatever unsigned digit run follows `<score>` without clamping. -/
theorem verdict_range_counterexample :
    sentiment_tweets [⟨"bittensor is nice", 0⟩] (.ok "<score>150</score>")
      = .ok ⟨150, true, "Sentiment score extracted successfully", 1⟩
    ∧ ¬ ((150 : Int) ≤ 100) := by
  constructor
  · rfl
  · decide

/-- C3 amended: the verdict the scoring capability returns is an integer
that is at least `-100` (in fact at least `0`); the upper bound `100` is not
enforced by the code. -/
theorem verdict_lower_bound (tweets : List Tweet) (llm : Except String String)
    (r : SentimentResponse) (h : sentiment_tweets tweets llm = .ok r) :
    -100 ≤ r.sentiment :=
  le_trans (by norm_num) (sentiment_tweets_nonneg tweets llm r h)

/-- Witness for the amended C3 at a concrete input. -/
theorem verdict_lower_bound_witness :
    (-100 : Int) ≤ (⟨0, false, "No tweets to analyze", 0⟩ : SentimentResponse).sentiment :=
  verdict_lower_bound [] (.ok "hello") _ rfl

/- ### Claim C6 -/

/-- C6: once the verdict reaches Stage C with the wallet initialized and the
request hotkey matching it, a positive verdict selects the stake action, a
negative one the unstake action, a zero verdict selects no action and reports
success, and in every case the computed quantity is `0.01 * |verdict|`. -/
theorem trade_action_selection (w : String) (sentiment : Int) (chain : Except String Bool) :
    (0 < sentiment →
      (TradeService.trade (some w) w sentiment chain).action = some ActionEnum.stake)
    ∧ (sentiment < 0 →
      (TradeService.trade (some w) w sentiment chain).action = some ActionEnum.unstake)
    ∧ (sentiment = 0 →
      (TradeService.trade (some w) w sentiment chain).action = none
        ∧ (TradeService.trade (some w) w sentiment chain).is_success = true)
    ∧ (TradeService.trade (some w) w sentiment chain).amount
        = some |(1 / 100 : ℚ) * sentiment| := by
  refine ⟨?_, ?_, ?_, ?_⟩
  · intro hp
    cases chain with
    | error e => simp [TradeService.trade, hp]
    | ok b => cases b <;> simp [TradeService.trade, hp]
  · intro hn
    have hp : ¬ sentiment > 0 := by omega
    cases chain with
    | error e => simp [TradeService.trade, hp, hn]
    | ok b => cases b <;> simp [TradeService.trade, hp, hn]
  · intro hz
    subst hz
    constructor <;> simp [TradeService.trade]
  · by_cases hp : sentiment > 0
    · cases chain with
      | error e => simp [TradeService.trade, hp]
      | ok b => cases b <;> simp [TradeService.trade, hp]
    · by_cases hn : sentiment < 0
      · cases chain with
        | error e => simp [TradeService.trade, hp, hn]
        | ok b => cases b <;> simp [TradeService.trade, hp, hn]
      · simp [TradeService.trade, hp, hn]

/-- Witness for C6: verdict `5` stakes, `-3` unstakes, `0` is a successful
no-op, and the quantity for verdict `5` is `0.05`. -/
theorem trade_action_selection_witness :
    (TradeService.trade (some "hk") "hk" 5 (.ok true)).action = some ActionEnum.stake
    ∧ (TradeService.trade (some "hk") "hk" (-3) (.ok true)).action = some ActionEnum.unstake
    ∧ ((TradeService.trade (some "hk") "hk" 0 (.ok true)).action = none
        ∧ (TradeService.trade (some "hk") "hk" 0 (.ok true)).is_success = true)
    ∧ (TradeService.trade (some "hk") "hk" 5 (.ok true)).amount
        = some |(1 / 100 : ℚ) * (5 : Int)| :=
  ⟨(trade_action_selection "hk" 5 (.ok true)).1 (by norm_num),
   (trade_action_selection "hk" (-3) (.ok true)).2.1 (by norm_num),
   (trade_action_selection "hk" 0 (.ok true)).2.2.1 rfl,
   (trade_action_selection "hk" 5 (.ok true)).2.2.2⟩

/- ### Claim C10 -/

/-- C10: the scoring value is never negative — the extraction regex captures
an unsigned digit run and every failure path returns `0` — and consequently
the decrease-commitment (unstake) branch of Stage C is unreachable: no
pipeline run ever enqueues a trade record carrying the unstake action. -/
theorem verdict_nonneg_unstake_unreachable :
    (∀ (tweets : List Tweet) (llm : Except String String) (r : SentimentResponse),
      sentiment_tweets tweets llm = .ok r → 0 ≤ r.sentiment)
    ∧ (∀ (input : ExecuteInput) (env : PipelineEnv) (rec : Rec),
        rec ∈ (background_process input env).recs → rec.isUnstakeRec = false) := by
  refine ⟨sentiment_tweets_nonneg, ?_⟩
  intro input env rec hmem
  rcases background_process_cases input env with ⟨ha, heq⟩ | ⟨ha, e, hs, heq⟩ |
    ⟨ha, sres, hs, hb, heq⟩ | ⟨ha, sres, hs, hb, heq⟩ <;> rw [heq] at hmem
  · exact isTweetRec_not_unstake rec (mem_add_twitter _ _ _ hmem).1
  · exact isTweetRec_not_unstake rec (mem_add_twitter _ _ _ hmem).1
  · rcases List.mem_append.mp hmem with h | h
    · exact isTweetRec_not_unstake rec (mem_add_twitter _ _ _ h).1
    · rcases (mem_add_sentiment _ _ _ _ h).1 with h' | h'
      · rw [h']; rfl
      · exact isTweetRec_not_unstake rec h'
  · rcases List.mem_append.mp hmem with h | h
    · rcases List.mem_append.mp h with h' | h'
      · exact isTweetRec_not_unstake rec (mem_add_twitter _ _ _ h').1
      · rcases (mem_add_sentiment _ _ _ _ h').1 with h'' | h''
        · rw [h'']; rfl
        · exact isTweetRec_not_unstake rec h''
    · rw [mem_add_trade _ _ _ _ h]
      exact isUnstakeRec_trade _ _ _ _ _ _
        (trade_action_nonneg env.wallet input.hotkey sres.sentiment env.chain
          (sentiment_tweets_nonneg _ env.llm sres hs))

/-- Witness for C10: a concrete scoring result and a concrete enqueued
record of a full successful run. -/
theorem verdict_nonneg_unstake_unreachable_witness :
    ((0 : Int) ≤
      (⟨0, false, "No tweets to analyze", 0⟩ : SentimentResponse).sentiment)
    ∧ (Rec.tweet "gm" "r1" 0).isUnstakeRec = false :=
  ⟨verdict_nonneg_unstake_unreachable.1 [] (.ok "hello") _ rfl,
   verdict_nonneg_unstake_unreachable.2 ⟨"r1", true, 18, "hk"⟩
     ⟨.ok [⟨"gm", 0⟩], .ok "<score>5</score>", .ok true, some "hk"⟩
     (Rec.tweet "gm" "r1" 0) (by decide)⟩

/- ### Claim C4 -/

/-- C4 counterexample: a run whose Stage A fails enqueues nothing at all —
in particular no Stage-A record either, against the claim's "only the
Stage A record is": the failed fetch carries zero items and Stage-A
persistence writes one row per item, so the failure itself is never
recorded in the store. -/
theorem stageA_failure_no_record_at_all :
    background_process ⟨"r1", true, 18, "hk"⟩
        ⟨.error "api down", .ok "irrelevant", .ok true, none⟩
      = ⟨[], none⟩ := rfl

/-- C4 amended: if Stage A reports failure, no Stage-B and no Stage-C record
with the run's request id is ever enqueued — indeed nothing at all is (the
failed fetch returns zero items, and Stage A persists one row per item), and
the engine exits cleanly without an escaping error. -/
theorem stageA_failure_short_circuit (input : ExecuteInput) (env : PipelineEnv)
    (ha : (get_bittensor_tweets env.fetch 10).is_success = false) :
    background_process input env = ⟨[], none⟩ := by
  have he : (get_bittensor_tweets env.fetch 10).tweets = [] := by
    cases hf : env.fetch with
    | ok l =>
      rw [hf] at ha
      simp [get_bittensor_tweets] at ha
    | error e => rfl
  simp [background_process, ha, add_twitter, he]

/-- Witness for the amended C4 at a concrete failing fetch. -/
theorem stageA_failure_short_circuit_witness :
    background_process ⟨"r2", true, 18, "hk"⟩
        ⟨.error "timeout", .ok "irrelevant", .ok true, none⟩
      = ⟨[], none⟩ :=
  stageA_failure_short_circuit ⟨"r2", true, 18, "hk"⟩
    ⟨.error "timeout", .ok "irrelevant", .ok true, none⟩ rfl

/- ### Claim C5 -/

/-- C5: when Stage A succeeds with zero items the run enqueues exactly one
record: a Stage-B sentiment record marked unsuccessful with the descriptive
message "No tweets to analyze"; no Stage-C record exists, the engine exits
cleanly, and the run's outcome is independent of the LLM, chain and wallet
environment — the LLM-scoring call is never made and Stage C never runs. -/
theorem stageA_empty_early_termination (input : ExecuteInput) (env : PipelineEnv)
    (ha : (get_bittensor_tweets env.fetch 10).is_success = true)
    (he : (get_bittensor_tweets env.fetch 10).tweets = []) :
    background_process input env
      = ⟨[.sentiment 0 false "No tweets to analyze" 0 input.request_id 0], none⟩
    ∧ ∀ llm chain wallet,
        background_process input ⟨env.fetch, llm, chain, wallet⟩
          = background_process input env := by
  have hsent0 : ∀ llm, sentiment_tweets [] llm
      = .ok ⟨0, false, "No tweets to analyze", 0⟩ := fun _ => rfl
  have hbp : ∀ llm chain wallet, background_process input ⟨env.fetch, llm, chain, wallet⟩
      = ⟨[.sentiment 0 false "No tweets to analyze" 0 input.request_id 0], none⟩ := by
    intro llm chain wallet
    simp only [background_process]
    simp [ha, he, add_twitter, add_sentiment, hsent0]
  have hself : background_process input env
      = ⟨[.sentiment 0 false "No tweets to analyze" 0 input.request_id 0], none⟩ :=
    hbp env.llm env.chain env.wallet
  exact ⟨hself, fun llm chain wallet => by rw [hbp llm chain wallet, hself]⟩

/-- Witness for C5 at a concrete empty successful fetch: the environment's
LLM and chain outcomes are error values, yet never consulted. -/
theorem stageA_empty_early_termination_witness :
    background_process ⟨"r1", true, 18, "hk"⟩
        ⟨.ok [], .error "llm down", .error "chain down", none⟩
      = ⟨[.sentiment 0 false "No tweets to analyze" 0 "r1" 0], none⟩ :=
  (stageA_empty_early_termination ⟨"r1", true, 18, "hk"⟩
    ⟨.ok [], .error "llm down", .error "chain down", none⟩ rfl rfl).1

/- ### Claim C2 -/

theorem sentiment_tweets_error_iff (tweets : List Tweet) (llm : Except String String)
    (e : String) :
    sentiment_tweets tweets llm = .error e ↔ tweets ≠ [] ∧ llm = .error e := by
  unfold sentiment_tweets
  by_cases ht : tweets.length = 0
  · have hnil : tweets = [] := List.length_eq_zero.mp ht
    simp [ht, hnil]
  · have hne : tweets ≠ [] := by
      intro h
      exact ht (by simp [h])
    cases llm with
    | error e' => simp [ht, hne]
    | ok content => cases hs : searchScore content.data <;> simp [ht, hne, hs]

/-- C2 counterexample: with Stage A succeeding with one item and the LLM
HTTP call raising, the exception escapes `background_process` — only the
detached task wrapper absorbs it — and the failed scoring stage leaves no
Stage-B record: the run's only enqueued record is the Stage-A row. -/
theorem engine_escape_counterexample :
    background_process ⟨"r1", true, 18, "hk"⟩
        ⟨.ok [⟨"gm", 0⟩], .error "connection reset", .ok true, some "hk"⟩
      = ⟨[.tweet "gm" "r1" 0], some "connection reset"⟩ := rfl

/-- C2 amended: every stage whose external call returns (success or failure
alike) has its record enqueued — Stage A one row per fetched item, Stage B
its sentiment record whenever `sentiment_tweets` returns, Stage C its trade
record whenever it runs — but when Stage A succeeds with a non-empty item
set and the LLM call raises, and exactly then, an exception escapes
`background_process` with no Stage-B record enqueued; it is absorbed only by
the detached-task wrapper. -/
theorem engine_error_containment (input : ExecuteInput) (env : PipelineEnv) :
    ((background_process input env).escaped ≠ none ↔
      ((get_bittensor_tweets env.fetch 10).is_success = true
        ∧ (get_bittensor_tweets env.fetch 10).tweets ≠ []
        ∧ ∃ e, env.llm = .error e))
    ∧ (∀ t ∈ (get_bittensor_tweets env.fetch 10).tweets,
        Rec.tweet t.text input.request_id 0 ∈ (background_process input env).recs)
    ∧ (∀ sres, (get_bittensor_tweets env.fetch 10).is_success = true →
        sentiment_tweets (get_bittensor_tweets env.fetch 10).tweets env.llm = .ok sres →
        Rec.sentiment sres.sentiment sres.is_success sres.message sres.tweets_count
            input.request_id 0 ∈ (background_process input env).recs
        ∧ (sres.is_success = true →
            ∀ r ∈ add_trade (TradeService.trade env.wallet input.hotkey sres.sentiment env.chain)
                input.request_id sres.sentiment,
              r ∈ (background_process input env).recs)) := by
  have hmemtw : ∀ (tr : TweetResponse) (rid : String), ∀ t ∈ tr.tweets,
      Rec.tweet t.text rid 0 ∈ add_twitter tr rid := by
    intro tr rid t ht
    exact List.mem_map_of_mem _ ht
  rcases background_process_cases input env with ⟨ha, heq⟩ | ⟨ha, e, hs, heq⟩ |
    ⟨ha, sres0, hs, hb, heq⟩ | ⟨ha, sres0, hs, hb, heq⟩ <;> rw [heq]
  · refine ⟨by simp [ha], fun t ht => hmemtw _ _ t ht, fun sres h1 h2 => ?_⟩
    rw [ha] at h1
    cases h1
  · obtain ⟨hne, hllm⟩ := (sentiment_tweets_error_iff _ env.llm e).mp hs
    refine ⟨⟨fun _ => ⟨ha, hne, e, hllm⟩, fun _ => by simp⟩,
      fun t ht => hmemtw _ _ t ht, fun sres h1 h2 => ?_⟩
    rw [hs] at h2
    cases h2
  · refine ⟨?_, fun t ht => List.mem_append_left _ (hmemtw _ _ t ht),
      fun sres h1 h2 => ?_⟩
    · constructor
      · intro h
        simp at h
      · rintro ⟨h1, h2, e, h3⟩
        exfalso
        have herr := (sentiment_tweets_error_iff
          (get_bittensor_tweets env.fetch 10).tweets env.llm e).mpr ⟨h2, h3⟩
        rw [herr] at hs
        cases hs
    · rw [hs] at h2
      injection h2 with h2
      subst h2
      refine ⟨List.mem_append_right _ (by unfold add_sentiment; exact List.mem_cons_self _ _),
        fun hbs => ?_⟩
      rw [hbs] at hb
      cases hb
  · refine ⟨?_, fun t ht =>
      List.mem_append_left _ (List.mem_append_left _ (hmemtw _ _ t ht)),
      fun sres h1 h2 => ?_⟩
    · constructor
      · intro h
        simp at h
      · rintro ⟨h1, h2, e, h3⟩
        exfalso
        have herr := (sentiment_tweets_error_iff
          (get_bittensor_tweets env.fetch 10).tweets env.llm e).mpr ⟨h2, h3⟩
        rw [herr] at hs
        cases hs
    · rw [hs] at h2
      injection h2 with h2
      subst h2
      refine ⟨List.mem_append_left _ (List.mem_append_right _
          (by unfold add_sentiment; exact List.mem_cons_self _ _)),
        fun hbs r hr => List.mem_append_right _ hr⟩

/-- Witness for the amended C2: a fully successful run enqueues both its
Stage-A row and its Stage-B sentiment record. -/
theorem engine_error_containment_witness :
    Rec.sentiment 5 true "Sentiment score extracted successfully" 1 "r1" 0
      ∈ (background_process ⟨"r1", true, 18, "hk"⟩
          ⟨.ok [⟨"gm", 0⟩], .ok "<score>5</score>", .ok true, some "hk"⟩).recs
    ∧ Rec.tweet "gm" "r1" 0
      ∈ (background_process ⟨"r1", true, 18, "hk"⟩
          ⟨.ok [⟨"gm", 0⟩], .ok "<score>5</score>", .ok true, some "hk"⟩).recs :=
  ⟨((engine_error_containment ⟨"r1", true, 18, "hk"⟩
      ⟨.ok [⟨"gm", 0⟩], .ok "<score>5</score>", .ok true, some "hk"⟩).2.2
      ⟨5, true, "Sentiment score extracted successfully", 1⟩ rfl rfl).1,
   (engine_error_containment ⟨"r1", true, 18, "hk"⟩
      ⟨.ok [⟨"gm", 0⟩], .ok "<score>5</score>", .ok true, some "hk"⟩).2.1
      ⟨"gm", 0⟩ (by decide)⟩

/- ### Claim C7 -/

/-- C7: the instantly returned answer's triggered flag equals the request's
trade flag; the instant answer is computed independently of the pipeline
environment (so it cannot depend on the detached run's eventual success or
failure), and when the flag is false no pipeline work happens: no records
are ever produced for the request and no error escapes. -/
theorem trigger_flag_matches_input (input : ExecuteInput) (env env' : PipelineEnv) :
    (ExecuteService.trade input env).instant.stake_tx_triggered = input.trade
    ∧ (ExecuteService.trade input env).instant = (ExecuteService.trade input env').instant
    ∧ (input.trade = false → (ExecuteService.trade input env).recs = []
        ∧ (ExecuteService.trade input env).escaped = none) := by
  by_cases h : input.trade = false
  · simp [ExecuteService.trade, h]
  · have h' : input.trade = true := by
      cases ht : input.trade
      · exact absurd ht h
      · rfl
    simp [ExecuteService.trade, h']

/-- Witness for C7: an untriggered request does no pipeline work; a
triggered one reports the flag true even over an all-failing environment. -/
theorem trigger_flag_matches_input_witness :
    ((ExecuteService.trade ⟨"r1", false, 18, "hk"⟩
        ⟨.error "down", .error "x", .error "y", none⟩).recs = []
      ∧ (ExecuteService.trade ⟨"r1", false, 18, "hk"⟩
          ⟨.error "down", .error "x", .error "y", none⟩).escaped = none)
    ∧ (ExecuteService.trade ⟨"r1", true, 18, "hk"⟩
        ⟨.error "down", .ok "x", .ok true, none⟩).instant.stake_tx_triggered = true :=
  ⟨(trigger_flag_matches_input ⟨"r1", false, 18, "hk"⟩
      ⟨.error "down", .error "x", .error "y", none⟩
      ⟨.error "down", .error "x", .error "y", none⟩).2.2 rfl,
   (trigger_flag_matches_input ⟨"r1", true, 18, "hk"⟩
      ⟨.error "down", .ok "x", .ok true, none⟩
      ⟨.error "down", .ok "x", .ok true, none⟩).1⟩

/- ### Claim C8 -/

theorem lookup_setKey_self (l : List (String × Json)) (key : String) (v : Json) :
    List.lookup key (setKey key v l) = some v := by
  induction l with
  | nil => simp [setKey, List.lookup]
  | cons p t ih =>
    obtain ⟨k, w⟩ := p
    by_cases hk : k = key
    · simp [setKey, hk, List.lookup]
    · have hbk : (key == k) = false := beq_eq_false_iff_ne.mpr fun h => hk h.symm
      simp [setKey, hk, List.lookup, hbk, ih]

theorem lookup_setKey_other (l : List (String × Json)) (key k' : String) (v : Json)
    (h : k' ≠ key) : List.lookup k' (setKey key v l) = List.lookup k' l := by
  induction l with
  | nil =>
    have hbk : (k' == key) = false := beq_eq_false_iff_ne.mpr h
    simp [setKey, List.lookup, hbk]
  | cons p t ih =>
    obtain ⟨k, w⟩ := p
    by_cases hk : k = key
    · subst hk
      have hbk : (k' == k) = false := beq_eq_false_iff_ne.mpr h
      simp [setKey, List.lookup, hbk]
    · by_cases hkk : k' = k
      · subst hkk
        simp [setKey, hk, List.lookup]
      · have hbk : (k' == k) = false := beq_eq_false_iff_ne.mpr hkk
        simp [setKey, hk, List.lookup, hbk, ih]

/-- C8: a second call with the same subject and trigger flag, issued within
the TTL of a first call that was a miss, returns the cache round trip of the
first answer: its `cached` field reads true and every other field reads
exactly as in the first answer's payload. -/
theorem cached_second_call_round_trip
    (netuid : Option Int) (hotkey : Option String) (trade : Bool)
    (store0 : RedisStore) (t1 t2 : Int) (env1 env2 : HandleEnv)
    (h1 h2 : HandleOutcome)
    (hmiss : store0 (cacheKey netuid hotkey trade) = none)
    (httl : t2 < t1 + settings.cache_ttl)
    (h1eq : h1 = get_tao_dividends netuid hotkey trade store0 t1 env1)
    (h2eq : h2 = get_tao_dividends netuid hotkey trade h1.store t2 env2) :
    h2.payload.lookup "cached" = some (.bool true)
    ∧ ∀ f, f ≠ "cached" → h2.payload.lookup f = h1.payload.lookup f := by
  have hget0 : redisGet store0 (cacheKey netuid hotkey trade) t1 = none := by
    unfold redisGet
    rw [hmiss]
  have h1f : h1 = freshAnswer netuid hotkey trade store0 t1 env1 := by
    rw [h1eq]
    unfold get_tao_dividends
    rw [hget0]
  have hpay : h1.payload = Json.obj
      [("dividends", dividendsJson env1.dividends),
       ("collected_at", .int env1.collected_at),
       ("cached", .bool false),
       ("trade", (ExecuteService.trade ⟨env1.request_id, trade,
          netuid.getD env1.default_netuid, hotkey.getD env1.default_hotkey⟩
          env1.pipeline).instant.toJson),
       ("request_id", .str env1.request_id)] := by
    rw [h1f]
    rfl
  have hstore : h1.store (cacheKey netuid hotkey trade)
      = some ⟨h1.payload, t1 + settings.cache_ttl⟩ := by
    rw [h1f]
    show redisSet store0 (cacheKey netuid hotkey trade) _ settings.cache_ttl t1
        (cacheKey netuid hotkey trade) = _
    simp only [redisSet, if_true]
    rfl
  have hget2 : redisGet h1.store (cacheKey netuid hotkey trade) t2 = some h1.payload := by
    unfold redisGet
    rw [hstore]
    show (if t2 < t1 + settings.cache_ttl then some h1.payload else none) = _
    rw [if_pos httl]
  have htruthy : h1.payload.truthy = true := by
    rw [hpay]
    rfl
  have h2p : h2.payload = h1.payload.setField "cached" (.bool true) := by
    rw [h2eq]
    unfold get_tao_dividends
    rw [hget2]
    simp [htruthy]
  constructor
  · rw [h2p, hpay]
    exact lookup_setKey_self _ _ _
  · intro f hf
    rw [h2p, hpay]
    exact lookup_setKey_other _ _ _ _ hf

/-- Witness for C8 at a concrete pair of calls sixty seconds apart. -/
theorem cached_second_call_round_trip_witness :
    (get_tao_dividends (some 18) (some "hk") false
        (get_tao_dividends (some 18) (some "hk") false (fun _ => none) 0
          ⟨[(18, [("hk1", 1000)])], "r1", 5, 18, "hk", ⟨.error "down", .ok "x", .ok true, none⟩⟩).store
        60 ⟨[(18, [("hk1", 1000)])], "r2", 65, 18, "hk",
          ⟨.error "down", .ok "x", .ok true, none⟩⟩).payload.lookup "cached"
      = some (.bool true)
    ∧ (get_tao_dividends (some 18) (some "hk") false
        (get_tao_dividends (some 18) (some "hk") false (fun _ => none) 0
          ⟨[(18, [("hk1", 1000)])], "r1", 5, 18, "hk", ⟨.error "down", .ok "x", .ok true, none⟩⟩).store
        60 ⟨[(18, [("hk1", 1000)])], "r2", 65, 18, "hk",
          ⟨.error "down", .ok "x", .ok true, none⟩⟩).payload.lookup "request_id"
      = (get_tao_dividends (some 18) (some "hk") false (fun _ => none) 0
          ⟨[(18, [("hk1", 1000)])], "r1", 5, 18, "hk",
            ⟨.error "down", .ok "x", .ok true, none⟩⟩).payload.lookup "request_id" :=
  ⟨(cached_second_call_round_trip (some 18) (some "hk") false (fun _ => none) 0 60
      ⟨[(18, [("hk1", 1000)])], "r1", 5, 18, "hk", ⟨.error "down", .ok "x", .ok true, none⟩⟩
      ⟨[(18, [("hk1", 1000)])], "r2", 65, 18, "hk", ⟨.error "down", .ok "x", .ok true, none⟩⟩
      _ _ rfl (by decide) rfl rfl).1,
   (cached_second_call_round_trip (some 18) (some "hk") false (fun _ => none) 0 60
      ⟨[(18, [("hk1", 1000)])], "r1", 5, 18, "hk", ⟨.error "down", .ok "x", .ok true, none⟩⟩
      ⟨[(18, [("hk1", 1000)])], "r2", 65, 18, "hk", ⟨.error "down", .ok "x", .ok true, none⟩⟩
      _ _ rfl (by decide) rfl rfl).2 "request_id" (by decide)⟩

/- ### Claim C9 -/

theorem freshAnswer_cached_false (netuid : Option Int) (hotkey : Option String)
    (trade : Bool) (store : RedisStore) (now : Int) (env : HandleEnv) :
    (freshAnswer netuid hotkey trade store now env).payload.lookup "cached"
      = some (.bool false) := rfl

/-- C9: a cache read at or after the entry's expiry is a miss — the store
never serves the expired value — so a handle call at such a time takes the
fresh path and returns `cached=false`, never `cached=true` from the expired
entry. -/
theorem expired_entry_never_served
    (netuid : Option Int) (hotkey : Option String) (trade : Bool)
    (store : RedisStore) (t : Int) (env : HandleEnv) (e : RedisEntry)
    (hent : store (cacheKey netuid hotkey trade) = some e)
    (hexp : e.expires_at ≤ t) :
    redisGet store (cacheKey netuid hotkey trade) t = none
    ∧ (get_tao_dividends netuid hotkey trade store t env).payload.lookup "cached"
        = some (.bool false) := by
  have hg : redisGet store (cacheKey netuid hotkey trade) t = none := by
    unfold redisGet
    rw [hent]
    show (if t < e.expires_at then some e.value else none) = none
    rw [if_neg]
    omega
  refine ⟨hg, ?_⟩
  unfold get_tao_dividends
  rw [hg]
  exact freshAnswer_cached_false _ _ _ _ _ _

/-- Witness for C9: an entry that expired at time 10, read at time 20. -/
theorem expired_entry_never_served_witness :
    redisGet (fun _ => some ⟨Json.null, 10⟩) (cacheKey (some 18) (some "hk") false) 20 = none
    ∧ (get_tao_dividends (some 18) (some "hk") false (fun _ => some ⟨Json.null, 10⟩) 20
        ⟨[(18, [("hk1", 1000)])], "r1", 20, 18, "hk",
          ⟨.error "down", .ok "x", .ok true, none⟩⟩).payload.lookup "cached"
      = some (.bool false) :=
  expired_entry_never_served (some 18) (some "hk") false (fun _ => some ⟨Json.null, 10⟩) 20
    ⟨[(18, [("hk1", 1000)])], "r1", 20, 18, "hk", ⟨.error "down", .ok "x", .ok true, none⟩⟩
    ⟨Json.null, 10⟩ rfl (by decide)

end Taopulse
